import Mathlib

/-!
Shallow embedding of `src/node_rpc/tcp_adnl/queries_cache.rs` from the
nodekeeper repository: the query correlation cache (`QueriesCache`,
`PendingAdnlQuery`, `QueryState`, `QueriesCacheError`) and its four
operations `add_query`, `update_query`, `wait` and the handle's `Drop`.
-/

deriving instance DecidableEq for Except

namespace Nodekeeper

/-- A correlation identifier: the `[u8; 32]` key of the dashmap, modelled as a
function from the 32 byte positions to byte values. -/
abbrev QueryId := Fin 32 → Fin 256

/-- Payload bytes (`Vec<u8>` / `&[u8]` in the source). -/
abbrev Bytes := List (Fin 256)

/-- The `QueryState` enum of the source. `Sent` holds the rendezvous barrier
(`Arc<Barrier>`), which we identify by a numeric token; `Received` holds the
answer bytes; `Timeout` carries nothing. -/
inductive QueryState where
  | sent (barrier : Nat)
  | received (answer : Bytes)
  | timeout
  deriving DecidableEq

/-- The `FxDashMap<[u8; 32], QueryState>` table, modelled as a finite map in
association-list form.  The operations below keep keys unique, matching the
map semantics of the dashmap. -/
abbrev Table := List (QueryId × QueryState)

/-- Map lookup: the state currently stored for an identifier, if any. -/
def Table.find (t : Table) (id : QueryId) : Option QueryState :=
  match t with
  | [] => none
  | (k, v) :: rest => if k = id then some v else Table.find rest id

/-- Map insert (`DashMap::insert` / `OccupiedEntry::insert`): binds `id` to
`s`, replacing any previous binding. -/
def Table.insert (t : Table) (id : QueryId) (s : QueryState) : Table :=
  (id, s) :: t.filter (fun e => !decide (e.1 = id))

/-- Map removal (`DashMap::remove`): the removed state, if any, together with
the table without `id`. -/
def Table.remove (t : Table) (id : QueryId) : Option QueryState × Table :=
  (Table.find t id, t.filter (fun e => !decide (e.1 = id)))

/-- The `QueriesCacheError` enum of the source. -/
inductive QueriesCacheError where
  | cacheDropped
  | invalidQueryState
  | unknownId
  | unexpectedState
  deriving DecidableEq

/-- The `QueriesCache` registry: it owns the table of pending queries. -/
structure QueriesCache where
  queries : Table
  deriving DecidableEq

/-- The `PendingAdnlQuery` handle.  The `Weak<QueriesCache>` back-reference is
modelled at each call site by an `Option QueriesCache` argument: the result of
upgrading the weak reference (`none` when every strong reference is gone). -/
structure PendingAdnlQuery where
  query_id : QueryId
  barrier : Nat
  finished : Bool
  deriving DecidableEq

/-- `QueriesCache::add_query`: inserts a fresh `Sent` entry holding a new
two-party barrier and returns the bound handle.  The fresh `Barrier::new(2)`
is modelled by the token `nextBarrier`; the third component is the next fresh
token for the caller to thread. -/
def QueriesCache.add_query (c : QueriesCache) (nextBarrier : Nat)
    (query_id : QueryId) : QueriesCache × PendingAdnlQuery × Nat :=
  (⟨Table.insert c.queries query_id (QueryState.sent nextBarrier)⟩,
   { query_id := query_id, barrier := nextBarrier, finished := false },
   nextBarrier + 1)

/-- `QueriesCache::update_query`: looks the identifier up; a `Sent` entry is
replaced by `Received`/`Timeout` (the dashmap `entry.insert` returning the old
state as `old`), then the result is chosen from `old`.  The
`barrier.wait().await` rendezvous on the success path only synchronises with
the waiter and leaves the table untouched. -/
def QueriesCache.update_query (c : QueriesCache) (query_id : QueryId)
    (answer : Option Bytes) : Except QueriesCacheError Bool × QueriesCache :=
  let step : Option QueryState × Table :=
    match Table.find c.queries query_id with
    | none => (none, c.queries)
    | some (QueryState.sent b) =>
        (some (QueryState.sent b),
         Table.insert c.queries query_id
           (match answer with
            | some bytes => QueryState.received bytes
            | none => QueryState.timeout))
    | some _ => (none, c.queries)
  match step.1 with
  | some (QueryState.sent _) => (Except.ok true, ⟨step.2⟩)
  | some _ => (Except.error QueriesCacheError.unexpectedState, ⟨step.2⟩)
  | none => (Except.ok false, ⟨step.2⟩)

/-- `PendingAdnlQuery::wait`, modelled from the point where the rendezvous
gate has fired.  `cache` is the result of upgrading the weak reference.
Returns the result, the handle after `self.finished = true`, and the cache
afterwards. -/
def PendingAdnlQuery.wait (h : PendingAdnlQuery) (cache : Option QueriesCache) :
    Except QueriesCacheError (Option Bytes) × PendingAdnlQuery ×
      Option QueriesCache :=
  let hFin := { h with finished := true }
  match cache with
  | none => (Except.error QueriesCacheError.cacheDropped, hFin, none)
  | some c =>
    match Table.remove c.queries h.query_id with
    | (some (QueryState.received answer), q) =>
        (Except.ok (some answer), hFin, some ⟨q⟩)
    | (some QueryState.timeout, q) => (Except.ok none, hFin, some ⟨q⟩)
    | (some _, q) =>
        (Except.error QueriesCacheError.invalidQueryState, hFin, some ⟨q⟩)
    | (none, q) => (Except.error QueriesCacheError.unknownId, hFin, some ⟨q⟩)

/-- `impl Drop for PendingAdnlQuery`: a no-op when `finished`, otherwise the
entry is removed if the weak upgrade succeeds. -/
def PendingAdnlQuery.dropHandle (h : PendingAdnlQuery)
    (cache : Option QueriesCache) : Option QueriesCache :=
  if h.finished then cache
  else
    match cache with
    | none => none
    | some c => some ⟨(Table.remove c.queries h.query_id).2⟩

/-- All-zero identifier, used for concrete scenarios. -/
def idA : QueryId := fun _ => 0

/-- All-one identifier, distinct from `idA`. -/
def idB : QueryId := fun _ => 1

/-- Filtering an identifier out of the table does not change lookups of other
identifiers. -/
theorem Table.find_filter_ne {id id' : QueryId} (t : Table) (h : id' ≠ id) :
    Table.find (t.filter (fun e => !decide (e.1 = id))) id' =
      Table.find t id' := by
  induction t with
  | nil => rfl
  | cons e rest ih =>
    obtain ⟨k, v⟩ := e
    by_cases hk : k = id
    · subst hk
      have hk' : ¬ k = id' := fun hkk => h (hkk ▸ rfl)
      simp [Table.find, hk', ih]
    · by_cases hk' : k = id'
      · subst hk'
        simp [Table.find, hk, ih]
      · simp [Table.find, hk, hk', ih]

/-- After filtering an identifier out of the table, looking it up gives
nothing. -/
theorem Table.find_filter_self (t : Table) (id : QueryId) :
    Table.find (t.filter (fun e => !decide (e.1 = id))) id = none := by
  induction t with
  | nil => rfl
  | cons e rest ih =>
    obtain ⟨k, v⟩ := e
    by_cases hk : k = id
    · subst hk
      simpa using ih
    · simp [Table.find, hk, ih]

/-- Looking up the identifier just inserted gives the inserted state. -/
theorem Table.find_insert_self (t : Table) (id : QueryId) (s : QueryState) :
    Table.find (Table.insert t id s) id = some s := by
  simp [Table.insert, Table.find]

/-- Inserting one identifier does not change lookups of other identifiers. -/
theorem Table.find_insert_ne {id id' : QueryId} (t : Table) (s : QueryState)
    (h : id' ≠ id) :
    Table.find (Table.insert t id s) id' = Table.find t id' := by
  have hk : ¬ id = id' := fun hkk => h (hkk ▸ rfl)
  simp [Table.insert, Table.find, hk, Table.find_filter_ne t h]

/-- Resolving an identifier that is absent from the table returns `Ok(false)`
and leaves the cache unchanged. -/
theorem update_query_absent (c : QueriesCache) (id : QueryId)
    (answer : Option Bytes) (h : Table.find c.queries id = none) :
    c.update_query id answer = (Except.ok false, c) := by
  simp [QueriesCache.update_query, h]

/-- Claim C4: for every identifier with no entry in the table (never
registered, or already removed), `update_query` returns `Ok(false)` for every
payload argument and leaves the table unchanged. -/
theorem C4_resolve_absent_ok_false (c : QueriesCache) (id : QueryId)
    (answer : Option Bytes) (h : Table.find c.queries id = none) :
    c.update_query id answer = (Except.ok false, c) :=
  update_query_absent c id answer h

/-- Witness for C4 at a concrete input: the empty cache and identifier
`idA`. -/
theorem C4_witness :
    Table.find (QueriesCache.mk []).queries idA = none ∧
    (QueriesCache.mk []).update_query idA (some [1]) =
      (Except.ok false, QueriesCache.mk []) :=
  ⟨rfl, C4_resolve_absent_ok_false ⟨[]⟩ idA (some [1]) rfl⟩

/-- Claim C6: when every strong reference to the registry is gone by the time
the gate fires, `wait` returns `Err(CacheDropped)` and touches no table. -/
theorem C6_wait_cache_dropped (h : PendingAdnlQuery) :
    h.wait none = (Except.error QueriesCacheError.cacheDropped,
      { h with finished := true }, none) :=
  rfl

/-- Counterexample to claim C1 as stated: register `idA`, resolve it once
(`Ok(true)`); the second `update_query` returns `Ok(false)` — not
`Err(UnexpectedState)` as the claim says. -/
theorem C1_counterexample :
    ((((QueriesCache.mk []).add_query 0 idA).1.update_query idA
        (some [1])).1 = Except.ok true) ∧
    (((((QueriesCache.mk []).add_query 0 idA).1.update_query idA
        (some [1])).2.update_query idA (some [2])).1 = Except.ok false) ∧
    ¬ (((((QueriesCache.mk []).add_query 0 idA).1.update_query idA
        (some [1])).2.update_query idA (some [2])).1 =
      Except.error QueriesCacheError.unexpectedState) := by
  refine ⟨by decide, by decide, ?_⟩
  decide

/-- Claim C1 (amended): after `add_query` and one resolve, the first
`update_query` returns `Ok(true)`; a second `update_query` before the handle
removes the entry returns `Ok(false)` and leaves the table — in particular
the payload deposited by the first call — unchanged. -/
theorem C1_second_resolve_returns_ok_false (c : QueriesCache) (nb : Nat)
    (id : QueryId) (a1 a2 : Option Bytes) :
    (((c.add_query nb id).1.update_query id a1).1 = Except.ok true) ∧
    ((((c.add_query nb id).1.update_query id a1).2).update_query id a2 =
      (Except.ok false, ((c.add_query nb id).1.update_query id a1).2)) := by
  cases a1 <;>
    simp [QueriesCache.add_query, QueriesCache.update_query,
      Table.find_insert_self]

/-- Claim C2: for an unregistered identifier, `add_query`, then
`update_query` with `Some payload` (resp. `None`), then `wait` yields
`Ok(true)` at the resolver and `Ok(Some payload)` byte-exactly (resp.
`Ok(None)`) at the waiter. -/
theorem C2_register_resolve_wait_roundtrip (c : QueriesCache) (nb : Nat)
    (id : QueryId) (payload : Bytes) (h : Table.find c.queries id = none) :
    ((c.add_query nb id).1.update_query id (some payload)).1 =
      Except.ok true ∧
    ((c.add_query nb id).2.1.wait
        (some ((c.add_query nb id).1.update_query id (some payload)).2)).1 =
      Except.ok (some payload) ∧
    ((c.add_query nb id).1.update_query id none).1 = Except.ok true ∧
    ((c.add_query nb id).2.1.wait
        (some ((c.add_query nb id).1.update_query id none).2)).1 =
      Except.ok none := by
  simp [QueriesCache.add_query, QueriesCache.update_query,
    PendingAdnlQuery.wait, Table.remove, Table.find_insert_self]

/-- Witness for C2 at the spec's concrete scenario: the identifier of 32
one-bytes resolved with the bytes of the string PONG. -/
theorem C2_witness :
    Table.find (QueriesCache.mk []).queries idB = none ∧
    (((QueriesCache.mk []).add_query 0 idB).2.1.wait
        (some (((QueriesCache.mk []).add_query 0 idB).1.update_query idB
          (some [80, 79, 78, 71])).2)).1 =
      Except.ok (some [80, 79, 78, 71]) :=
  ⟨rfl,
    (C2_register_resolve_wait_roundtrip ⟨[]⟩ 0 idB [80, 79, 78, 71] rfl).2.1⟩

/-- Claim C3: when the registry still exists after the gate fires, `wait`
removes its own entry and returns exactly according to the removed state:
`Received(payload)` gives `Ok(Some(payload))`, `Timeout` gives `Ok(None)`, a
`Sent` entry gives `Err(InvalidQueryState)`, a missing entry gives
`Err(UnknownId)`. -/
theorem C3_wait_result_matches_removed_state (h : PendingAdnlQuery)
    (c : QueriesCache) :
    (h.wait (some c)).2.2 =
      some ⟨(Table.remove c.queries h.query_id).2⟩ ∧
    (∀ a, (Table.remove c.queries h.query_id).1 =
        some (QueryState.received a) →
      (h.wait (some c)).1 = Except.ok (some a)) ∧
    ((Table.remove c.queries h.query_id).1 = some QueryState.timeout →
      (h.wait (some c)).1 = Except.ok none) ∧
    (∀ b, (Table.remove c.queries h.query_id).1 = some (QueryState.sent b) →
      (h.wait (some c)).1 =
        Except.error QueriesCacheError.invalidQueryState) ∧
    ((Table.remove c.queries h.query_id).1 = none →
      (h.wait (some c)).1 = Except.error QueriesCacheError.unknownId) := by
  rcases hst : Table.find c.queries h.query_id with _ | st
  · simp [PendingAdnlQuery.wait, Table.remove, hst]
  · cases st <;> simp [PendingAdnlQuery.wait, Table.remove, hst]

/-- Witness for C3 at concrete inputs: a cache whose entry for `idA` is
`Received [7]` (the received branch) and the empty cache (the missing-entry
branch). -/
theorem C3_witness :
    ((PendingAdnlQuery.mk idA 0 false).wait
        (some (QueriesCache.mk [(idA, QueryState.received [7])]))).1 =
      Except.ok (some [7]) ∧
    ((PendingAdnlQuery.mk idA 0 false).wait (some (QueriesCache.mk []))).1 =
      Except.error QueriesCacheError.unknownId :=
  ⟨(C3_wait_result_matches_removed_state (PendingAdnlQuery.mk idA 0 false)
      ⟨[(idA, QueryState.received [7])]⟩).2.1 [7] (by decide),
   (C3_wait_result_matches_removed_state (PendingAdnlQuery.mk idA 0 false)
      ⟨[]⟩).2.2.2.2 rfl⟩

/-- Claim C5: dropping a handle whose `wait` has not completed, while the
registry still exists, removes the entry for its identifier regardless of
state; a subsequent `update_query` on that identifier therefore returns
`Ok(false)`. -/
theorem C5_drop_unfinished_removes_entry (h : PendingAdnlQuery)
    (c : QueriesCache) (answer : Option Bytes) (hf : h.finished = false) :
    h.dropHandle (some c) =
      some ⟨(Table.remove c.queries h.query_id).2⟩ ∧
    (QueriesCache.mk (Table.remove c.queries h.query_id).2).update_query
        h.query_id answer =
      (Except.ok false, ⟨(Table.remove c.queries h.query_id).2⟩) := by
  constructor
  · simp [PendingAdnlQuery.dropHandle, hf]
  · exact update_query_absent _ _ _ (Table.find_filter_self c.queries _)

/-- Witness for C5 at a concrete input: an unfinished handle for `idA` over a
cache holding a `Sent` entry for `idA`. -/
theorem C5_witness :
    (PendingAdnlQuery.mk idA 0 false).dropHandle
        (some (QueriesCache.mk [(idA, QueryState.sent 0)])) =
      some ⟨(Table.remove
        (QueriesCache.mk [(idA, QueryState.sent 0)]).queries idA).2⟩ ∧
    (QueriesCache.mk (Table.remove
        (QueriesCache.mk [(idA, QueryState.sent 0)]).queries
        idA).2).update_query idA (some [3]) =
      (Except.ok false, ⟨(Table.remove
        (QueriesCache.mk [(idA, QueryState.sent 0)]).queries idA).2⟩) :=
  C5_drop_unfinished_removes_entry (PendingAdnlQuery.mk idA 0 false)
    ⟨[(idA, QueryState.sent 0)]⟩ (some [3]) rfl

/-- Claim C7: `update_query` never returns `Err(UnexpectedState)`; a call on
an identifier whose entry is already `Received` or `Timeout` returns
`Ok(false)` and leaves the table unchanged — the error branch of the final
match is unreachable, since the old state is only reported when it was
`Sent`. -/
theorem C7_update_query_never_unexpected_state (c : QueriesCache)
    (id : QueryId) (answer : Option Bytes) :
    ((c.update_query id answer).1 ≠
        Except.error QueriesCacheError.unexpectedState) ∧
    (∀ a, Table.find c.queries id = some (QueryState.received a) →
      c.update_query id answer = (Except.ok false, c)) ∧
    (Table.find c.queries id = some QueryState.timeout →
      c.update_query id answer = (Except.ok false, c)) := by
  rcases hst : Table.find c.queries id with _ | st
  · simp [QueriesCache.update_query, hst]
  · cases st <;> simp [QueriesCache.update_query, hst]

/-- Witness for C7 at a concrete input: a cache whose entry for `idA` is
already `Received [9]`. -/
theorem C7_witness :
    ((QueriesCache.mk [(idA, QueryState.received [9])]).update_query idA
        (some [2])).1 ≠ Except.error QueriesCacheError.unexpectedState ∧
    (QueriesCache.mk [(idA, QueryState.received [9])]).update_query idA
        (some [2]) =
      (Except.ok false, QueriesCache.mk [(idA, QueryState.received [9])]) :=
  ⟨(C7_update_query_never_unexpected_state
      ⟨[(idA, QueryState.received [9])]⟩ idA (some [2])).1,
   (C7_update_query_never_unexpected_state
      ⟨[(idA, QueryState.received [9])]⟩ idA (some [2])).2.1 [9] (by decide)⟩

/-- Claim C8: once `wait` has completed (with any `Ok` or `Err` value), the
handle it leaves behind carries `finished = true`, so the subsequent drop
performs no registry modification at all. -/
theorem C8_drop_after_wait_is_noop (h : PendingAdnlQuery)
    (cache cache' : Option QueriesCache) :
    ((h.wait cache).2.1).finished = true ∧
    ((h.wait cache).2.1).dropHandle cache' = cache' := by
  cases cache with
  | none => simp [PendingAdnlQuery.wait, PendingAdnlQuery.dropHandle]
  | some c =>
    rcases hst : Table.find c.queries h.query_id with _ | st
    · simp [PendingAdnlQuery.wait, Table.remove, hst,
        PendingAdnlQuery.dropHandle]
    · cases st <;>
        simp [PendingAdnlQuery.wait, Table.remove, hst,
          PendingAdnlQuery.dropHandle]

/-- Claim C9: every operation keyed by one identifier — `add_query`,
`update_query`, `wait` on its handle, and dropping its handle — leaves the
table entry of every distinct identifier unchanged. -/
theorem C9_per_identifier_isolation (c : QueriesCache) (nb : Nat)
    (id id' : QueryId) (answer : Option Bytes) (h : PendingAdnlQuery)
    (hne : id' ≠ id) (hneh : id' ≠ h.query_id) :
    Table.find ((c.add_query nb id).1).queries id' =
      Table.find c.queries id' ∧
    Table.find ((c.update_query id answer).2).queries id' =
      Table.find c.queries id' ∧
    (∀ c2, (h.wait (some c)).2.2 = some c2 →
      Table.find c2.queries id' = Table.find c.queries id') ∧
    (∀ c3, h.dropHandle (some c) = some c3 →
      Table.find c3.queries id' = Table.find c.queries id') := by
  refine ⟨Table.find_insert_ne c.queries _ hne, ?_, ?_, ?_⟩
  · rcases hst : Table.find c.queries id with _ | st
    · simp [QueriesCache.update_query, hst]
    · cases st <;>
        simp [QueriesCache.update_query, hst, Table.find_insert_ne, hne]
  · intro c2 hc2
    rcases hst : Table.find c.queries h.query_id with _ | st
    · simp [PendingAdnlQuery.wait, Table.remove, hst] at hc2
      simp [← hc2, Table.find_filter_ne, hneh]
    · cases st <;>
        · simp [PendingAdnlQuery.wait, Table.remove, hst] at hc2
          simp [← hc2, Table.find_filter_ne, hneh]
  · intro c3 hc3
    cases hf : h.finished with
    | true =>
      simp [PendingAdnlQuery.dropHandle, hf] at hc3
      simp [← hc3]
    | false =>
      simp [PendingAdnlQuery.dropHandle, hf, Table.remove] at hc3
      simp [← hc3, Table.find_filter_ne, hneh]

/-- Witness for C9 at concrete inputs: operations on `idA` leave the entry of
the distinct identifier `idB` unchanged. -/
theorem C9_witness :
    Table.find (((QueriesCache.mk [(idB, QueryState.timeout)]).add_query 0
        idA).1).queries idB =
      Table.find (QueriesCache.mk [(idB, QueryState.timeout)]).queries idB ∧
    Table.find (((QueriesCache.mk [(idB, QueryState.timeout)]).update_query
        idA (some [5])).2).queries idB =
      Table.find (QueriesCache.mk [(idB, QueryState.timeout)]).queries idB :=
  ⟨(C9_per_identifier_isolation ⟨[(idB, QueryState.timeout)]⟩ 0 idA idB
      (some [5]) (PendingAdnlQuery.mk idA 0 false) (by decide)
      (by decide)).1,
   (C9_per_identifier_isolation ⟨[(idB, QueryState.timeout)]⟩ 0 idA idB
      (some [5]) (PendingAdnlQuery.mk idA 0 false) (by decide)
      (by decide)).2.1⟩

/-- Events of one `update_query` call, in program order: taking the dashmap
entry guard, dropping it, and the `barrier.wait().await` rendezvous. -/
inductive ResolveEvent where
  | entryAcquire
  | entryRelease
  | barrierWait
  deriving DecidableEq

/-- Control-flow trace of `update_query`: the entry guard obtained by
`self.queries.entry(query_id)` is dropped at the end of the statement that
computes `old` (the match consuming the entry), and `barrier.wait().await`
runs after that, only on the path where the old state was `Sent`. -/
def QueriesCache.update_queryTrace (c : QueriesCache) (query_id : QueryId) :
    List ResolveEvent :=
  let signals : Bool :=
    match Table.find c.queries query_id with
    | some (QueryState.sent _) => true
    | _ => false
  [ResolveEvent.entryAcquire, ResolveEvent.entryRelease] ++
    (if signals then [ResolveEvent.barrierWait] else [])

/-- Number of entry guards still held after a sequence of events. -/
def locksHeld (es : List ResolveEvent) : Nat :=
  es.foldl
    (fun n e =>
      match e with
      | ResolveEvent.entryAcquire => n + 1
      | ResolveEvent.entryRelease => n - 1
      | ResolveEvent.barrierWait => n) 0

/-- Claim C10: in `update_query` the per-entry exclusive section is released
strictly before the rendezvous gate is signalled: at every position of the
trace holding `barrier.wait().await`, no entry guard is held, and the guard
release occurs at an earlier position. -/
theorem C10_entry_guard_released_before_barrier (c : QueriesCache)
    (query_id : QueryId) (i : Nat)
    (hi : (c.update_queryTrace query_id)[i]? =
      some ResolveEvent.barrierWait) :
    locksHeld ((c.update_queryTrace query_id).take i) = 0 ∧
    ∃ j, j < i ∧
      (c.update_queryTrace query_id)[j]? =
        some ResolveEvent.entryRelease := by
  rcases hst : Table.find c.queries query_id with _ | st
  · simp [QueriesCache.update_queryTrace, hst] at hi
    rcases i with _ | _ | i <;> simp_all
  · cases st with
    | sent b =>
      simp [QueriesCache.update_queryTrace, hst] at hi ⊢
      rcases i with _ | _ | _ | i <;> simp_all
      exact ⟨by decide, 1, by simp⟩
    | received a =>
      simp [QueriesCache.update_queryTrace, hst] at hi
      rcases i with _ | _ | i <;> simp_all
    | timeout =>
      simp [QueriesCache.update_queryTrace, hst] at hi
      rcases i with _ | _ | i <;> simp_all

/-- Witness for C10 at a concrete input: a cache holding a `Sent` entry for
`idA`; the barrier event sits at position 2 of the trace. -/
theorem C10_witness :
    ((QueriesCache.mk [(idA, QueryState.sent 0)]).update_queryTrace idA)[2]? =
      some ResolveEvent.barrierWait ∧
    (locksHeld (((QueriesCache.mk
        [(idA, QueryState.sent 0)]).update_queryTrace idA).take 2) = 0 ∧
      ∃ j, j < 2 ∧
        ((QueriesCache.mk
          [(idA, QueryState.sent 0)]).update_queryTrace idA)[j]? =
          some ResolveEvent.entryRelease) :=
  ⟨by decide,
   C10_entry_guard_released_before_barrier ⟨[(idA, QueryState.sent 0)]⟩ idA 2
     (by decide)⟩

end Nodekeeper
